import Mathlib

/-
Verification of the Raise3D printer REST client
(custom_components/raise3d/api.py and custom_components/raise3d/__init__.py).

The Python client is embedded shallowly:
  - JSON values become the inductive type JValue;
  - Python exceptions become the inductive type PyError, with one
    constructor per exception class that the client raises or catches;
  - the HTTP layer is an oracle: each executed request consumes an
    HttpResponse argument describing the status and parsed JSON body the
    server would return, and with raise_for_status=True a status of 400 or
    more raises the transport-level ClientResponseError before the body is
    inspected;
  - mutable client attributes (printer_token, printer_password, ...) are
    gathered in ClientState and threaded explicitly;
  - observable effects (sending a request, sleeping for backoff) are
    recorded in an event trace returned next to the result.
-/

namespace Raise3D

/-- JSON values as produced by parsing a response body. -/
inductive JValue where
  | null
  | bool (b : Bool)
  | int (n : ℤ)
  | str (s : String)
  | arr (xs : List JValue)
  | obj (fields : List (String × JValue))

/-- Python truthiness of a JSON value, as used by `not self.printer_token`. -/
def truthy : JValue → Bool
  | .null => false
  | .bool b => b
  | .int n => n != 0
  | .str s => !s.isEmpty
  | .arr xs => !xs.isEmpty
  | .obj fs => !fs.isEmpty

/-- Lookup of a key in a JSON object (Python dict lookup; keys are unique). -/
def jlookup : List (String × JValue) → String → Option JValue
  | [], _ => none
  | (k, v) :: rest, key => if k = key then some v else jlookup rest key

/-- Python dict.get(key): returns None when the key is absent. -/
def jget (fields : List (String × JValue)) (key : String) : JValue :=
  (jlookup fields key).getD .null

/-- Python dict.get(key, default). -/
def jgetD (fields : List (String × JValue)) (key : String) (dflt : JValue) : JValue :=
  (jlookup fields key).getD dflt

/-- Python comparison of a JSON value with the literal 1; note that in
Python the boolean True compares equal to 1. -/
def pyEqOne : JValue → Bool
  | .int 1 => true
  | .bool true => true
  | _ => false

/-- Accumulate decimal digits into a natural number. -/
def digitsToNat (cs : List Char) : ℕ :=
  cs.foldl (fun a c => a * 10 + (c.toNat - 48)) 0

/-- A nonempty all-digit character list parses to its value. -/
def parseDigits (cs : List Char) : Option ℕ :=
  if cs.isEmpty then none
  else if cs.all Char.isDigit then some (digitsToNat cs) else none

/-- Strip leading and trailing whitespace from a character list. -/
def stripSpaces (cs : List Char) : List Char :=
  ((cs.dropWhile Char.isWhitespace).reverse.dropWhile Char.isWhitespace).reverse

/-- Python int(s) for a string: surrounding whitespace stripped, optional
sign, then decimal digits; anything else raises ValueError (none here). -/
def pyStrToInt (s : String) : Option ℤ :=
  match stripSpaces s.toList with
  | '-' :: rest => (parseDigits rest).map fun n => -(n : ℤ)
  | '+' :: rest => (parseDigits rest).map fun n => (n : ℤ)
  | cs => (parseDigits cs).map fun n => (n : ℤ)

/-- Python int(x) on a JSON value: ints pass through, booleans convert,
numeric strings parse; None, lists and objects raise TypeError, bad strings
raise ValueError (both are `none` here, matching the
`except (TypeError, ValueError)` around the call). -/
def pyToInt : JValue → Option ℤ
  | .int n => some n
  | .bool b => some (if b then 1 else 0)
  | .str s => pyStrToInt s
  | _ => none

/-- Python exceptions raised or caught by the client. The aiohttp class
hierarchy matters only through clientResponseStatus and isTransient below:
apiResponseError is a subclass of aiohttp ClientResponseError, while
genericClientError (the plain aiohttp.ClientError the client raises) and
clientOSError are not. -/
inductive PyError where
  | runtimeError (msg : String)
  | valueError (msg : String)
  | keyError (key : String)
  | typeError (msg : String)
  | attributeError (msg : String)
  | clientResponseError (status : ℤ)
  | apiResponseError (status : ℤ) (msg : JValue)
  | genericClientError (msg : JValue)
  | clientOSError (errno : ℤ)
  | serverDisconnectedError

/-- The status attribute of an exception, when the exception is an
aiohttp ClientResponseError (APIResponseError included, whose status field
holds the JSON error code). Other exceptions are not caught by
`except aiohttp.ClientResponseError`. -/
def clientResponseStatus : PyError → Option ℤ
  | .clientResponseError s => some s
  | .apiResponseError s _ => some s
  | _ => none

/-- Observable effects of a call: an HTTP request going out (with the
query parameters actually attached), or an asyncio.sleep backoff. -/
inductive Event where
  | send (method url endpoint : String) (params : List (String × JValue)) (auth : Bool)
  | methodCall
  | sleep (seconds : ℚ)

/-- Mutable attributes of Raise3DStatefulPrinterAPI (with the base class
attributes it inherits) plus whether the aiohttp session is closed. -/
structure ClientState where
  printer_url : String
  printer_password : String
  printer_token : JValue
  printer_auto_auth : Bool
  closed : Bool

/-- The server side of one executed request: HTTP status and parsed JSON
object body. -/
structure HttpResponse where
  status : ℤ
  body : List (String × JValue)

/-- Timestamp argument of generate_sign: Python None, a datetime, a float
(the type of time.time() and datetime.timestamp(), modelled as an exact
rational number of epoch seconds), or an int. -/
inductive PyTimestamp where
  | pynone
  | pydatetime (seconds : ℚ)
  | pyfloat (seconds : ℚ)
  | pyint (n : ℤ)

/-- Python int(q) for a rational: truncation toward zero. -/
def pyTrunc (q : ℚ) : ℤ := Int.tdiv q.num q.den

/-- Raise3DPrinterAPI.generate_sign. The hash functions from hashlib are
external library code and are passed in as parameters (hexdigest of sha1,
hexdigest of md5); `now` is the value time.time() would return. A None
timestamp becomes time.time(); a datetime becomes its float epoch seconds;
a float is scaled to integer milliseconds; every other input, an int
included, falls into the else branch and raises ValueError. -/
def generate_sign (sha1Hex md5Hex : String → String) (now : ℚ)
    (password : String) (timestamp : PyTimestamp) : Except PyError (String × ℤ) :=
  let ts : PyTimestamp :=
    match timestamp with
    | .pynone => .pyfloat now
    | .pydatetime s => .pyfloat s
    | t => t
  match ts with
  | .pyfloat s =>
      let millis := pyTrunc (s * 1000)
      let sha1h := sha1Hex ("password=" ++ password ++ "&timestamp=" ++ toString millis)
      .ok (md5Hex sha1h, millis)
  | _ => .error (.valueError "invalid timestamp argument")

/-- The error field of the body: response_data.get("error", dict())
followed by attribute access .get on the result, which raises
AttributeError when the field is present but not an object. -/
def errorField (body : List (String × JValue)) : Except PyError (List (String × JValue)) :=
  match jlookup body "error" with
  | none => .ok []
  | some (.obj fs) => .ok fs
  | some _ => .error (.attributeError "object has no attribute get")

/-- Raise3DPrinterAPI.printer_request: fail fast on a closed session
(RuntimeError), require a truthy token when auth is set (ValueError),
attach the token as a query parameter, send; raise_for_status raises the
transport ClientResponseError for HTTP status 400 and above before the
body is read; HTTP 200 with JSON status equal to 1 returns the data field;
otherwise extract error.code with int() and raise APIResponseError on
success of the parse, the generic aiohttp.ClientError on TypeError or
ValueError from it. -/
def printer_request (st : ClientState) (method endpoint : String)
    (params : List (String × JValue)) (auth : Bool) (resp : HttpResponse) :
    Except PyError JValue × List Event :=
  if st.closed then
    (.error (.runtimeError "Client session is closed!"), [])
  else if auth && !(truthy st.printer_token) then
    (.error (.valueError "Authentication token is required for this API call."), [])
  else
    let passParams := (if auth then [(("token" : String), st.printer_token)] else []) ++ params
    let evs : List Event := [Event.send method (st.printer_url ++ endpoint) endpoint passParams auth]
    if 400 ≤ resp.status then
      (.error (.clientResponseError resp.status), evs)
    else if resp.status == 200 && pyEqOne (jget resp.body "status") then
      (.ok (jget resp.body "data"), evs)
    else
      match errorField resp.body with
      | .error e => (.error e, evs)
      | .ok err =>
          match pyToInt (jget err "code") with
          | some code =>
              (.error (.apiResponseError code (jgetD err "msg" (.str "Unknown error"))), evs)
          | none =>
              (.error (.genericClientError (jgetD err "msg" (.str "Unknown error"))), evs)

/-- The token-storing tail of Raise3DStatefulPrinterAPI.login: a failed
request propagates, a successful one stores body data token into
printer_token (subscripting raises KeyError when the key is missing,
TypeError when data is not an object) and returns the data. -/
def login_store_token (st : ClientState) :
    Except PyError JValue × List Event → Except PyError JValue × ClientState × List Event
  | (.error e, evs) => (.error e, st, evs)
  | (.ok data, evs) =>
      match data with
      | .obj fs =>
          match jlookup fs "token" with
          | some tok => (.ok data, { st with printer_token := tok }, evs)
          | none => (.error (.keyError "token"), st, evs)
      | _ => (.error (.typeError "object is not subscriptable"), st, evs)

/-- Raise3DStatefulPrinterAPI.login: reject a signature supplied without a
timestamp; then discard the arguments and regenerate sign and timestamp
from the stored password and the current time; send GET /v1/login without
auth (and with auto_auth disabled, so the plain printer_request runs);
on success store the returned token. -/
def stateful_login (sha1Hex md5Hex : String → String) (now : ℚ) (st : ClientState)
    (sign : Option String) (timestamp : Option ℤ) (loginResp : HttpResponse) :
    Except PyError JValue × ClientState × List Event :=
  if timestamp.isNone && sign.isSome then
    (.error (.valueError "signature provided without timestamp"), st, [])
  else
    match generate_sign sha1Hex md5Hex now st.printer_password .pynone with
    | .error e => (.error e, st, [])
    | .ok (s, ts) =>
        login_store_token st
          (printer_request st "GET" "/v1/login"
            [(("sign" : String), .str s), (("timestamp" : String), .int ts)] false loginResp)

/-- Raise3DStatefulPrinterAPI.printer_request: run the base request; only
an aiohttp ClientResponseError with status 401 and auto_auth on is caught,
every other exception propagates; on a caught 401 run login (no
arguments), then retry the base request exactly once and return its
outcome whatever it is. resp1 answers the first attempt, loginResp the
login request, resp2 the retry. -/
def stateful_printer_request (sha1Hex md5Hex : String → String) (now : ℚ)
    (st : ClientState) (method endpoint : String) (params : List (String × JValue))
    (auth : Bool) (auto_auth : Option Bool)
    (resp1 loginResp resp2 : HttpResponse) :
    Except PyError JValue × ClientState × List Event :=
  let autoAuth := auto_auth.getD st.printer_auto_auth
  match printer_request st method endpoint params auth resp1 with
  | (.ok v, evs) => (.ok v, st, evs)
  | (.error e, evs) =>
      match clientResponseStatus e with
      | none => (.error e, st, evs)
      | some s =>
          if !autoAuth || s != 401 then
            (.error e, st, evs)
          else
            match stateful_login sha1Hex md5Hex now st none none loginResp with
            | (.error le, st2, evsL) => (.error le, st2, evs ++ evsL)
            | (.ok _, st2, evsL) =>
                match printer_request st2 method endpoint params auth resp2 with
                | (r2, evs2) => (r2, st2, evs ++ evsL ++ evs2)

/-- The except clauses of _async_call_api_method: ServerDisconnectedError,
ClientOSError with errno 104, and any ClientResponseError whose status
attribute is 429 (APIResponseError carrying JSON error code 429 included,
being a subclass) fall through to the backoff; everything else is
re-raised. -/
def isTransient : PyError → Bool
  | .serverDisconnectedError => true
  | .clientOSError errno => errno == 104
  | .clientResponseError s => s == 429
  | .apiResponseError s _ => s == 429
  | _ => false

/-- _async_call_api_method in custom_components/raise3d/init: call the
method; on a transient failure sleep 1.5 seconds and call it again once,
returning the second outcome whatever it is; on any other failure
re-raise at once. r1 and r2 are the outcomes the wrapped method would
produce on the first and second invocation. -/
def async_call_api_method (r1 r2 : Except PyError JValue) :
    Except PyError JValue × List Event :=
  match r1 with
  | .ok v => (.ok v, [.methodCall])
  | .error e =>
      if isTransient e then (r2, [.methodCall, .sleep ((3 : ℚ) / 2), .methodCall])
      else (.error e, [.methodCall])

/-- Whether a trace contains a request to the login endpoint. -/
def hasLoginSend (evs : List Event) : Bool :=
  evs.any fun e =>
    match e with
    | .send _ _ ep _ _ => ep == "/v1/login"
    | _ => false

/-- Identity used where a concrete stand-in for the hash parameters is
needed in closed statements. -/
def idHash : String → String := fun s => s

/-- A client state with no token held, auto auth on, session open. -/
def st0 : ClientState :=
  { printer_url := "http://printer:10800", printer_password := "secret"
    printer_token := .null, printer_auto_auth := true, closed := false }

/-- A client state holding the token old, auto auth on, session open. -/
def stTok : ClientState :=
  { printer_url := "http://printer:10800", printer_password := "secret"
    printer_token := .str "old", printer_auto_auth := true, closed := false }

/-- A successful response carrying data ok. -/
def resp200 : HttpResponse :=
  { status := 200, body := [("status", .int 1), ("data", .str "ok")] }

/-- A bare HTTP 401 response. -/
def resp401 : HttpResponse := { status := 401, body := [] }

/-- A successful login response carrying the token new. -/
def respLoginOK : HttpResponse :=
  { status := 200, body := [("status", .int 1), ("data", .obj [("token", .str "new")])] }

/-- An HTTP 500 response whose body nonetheless carries a parseable
error.code. -/
def resp500 : HttpResponse :=
  { status := 500
    body := [("status", .int 0), ("error", .obj [("code", .int 42), ("msg", .str "boom")])] }

/-- An HTTP 200 response that is an application-level error with JSON
error code 429. -/
def resp429api : HttpResponse :=
  { status := 200
    body := [("status", .int 0), ("error", .obj [("code", .int 429), ("msg", .str "slow down")])] }

/-- An HTTP 200 application-level error whose error.code does not parse
as an integer. -/
def respBadCode : HttpResponse :=
  { status := 200
    body := [("status", .int 0), ("error", .obj [("code", .str "abc"), ("msg", .str "bad")])] }

/-- A client state whose aiohttp session has been closed. -/
def stClosed : ClientState :=
  { printer_url := "http://printer:10800", printer_password := "secret"
    printer_token := .str "old", printer_auto_auth := true, closed := true }

/-- The query parameters the stateful login actually sends: the signature
and millisecond timestamp generated from the stored password and the
current time. -/
def loginParams (sha1Hex md5Hex : String → String) (now : ℚ) (pw : String) :
    List (String × JValue) :=
  [(("sign" : String),
    .str (md5Hex (sha1Hex ("password=" ++ pw ++ "&timestamp=" ++ toString (pyTrunc (now * 1000)))))),
   (("timestamp" : String), .int (pyTrunc (now * 1000)))]

/-- The send event of the stateful login request. -/
def loginSend (sha1Hex md5Hex : String → String) (now : ℚ) (st : ClientState) : Event :=
  .send "GET" (st.printer_url ++ "/v1/login") "/v1/login"
    (loginParams sha1Hex md5Hex now st.printer_password) false

/-! Helper lemmas about single request execution. -/

lemma auth_check_false {st : ClientState} {a : Bool}
    (hauth : a = false ∨ truthy st.printer_token = true) :
    (a && !(truthy st.printer_token)) = false := by
  rcases hauth with h | h <;> simp [h]

lemma printer_request_http_error (st : ClientState) (m ep : String)
    (ps : List (String × JValue)) (a : Bool) (r : HttpResponse)
    (hclosed : st.closed = false)
    (hauth : a = false ∨ truthy st.printer_token = true)
    (hs : 400 ≤ r.status) :
    printer_request st m ep ps a r =
      (.error (.clientResponseError r.status),
       [Event.send m (st.printer_url ++ ep) ep
         ((if a then [(("token" : String), st.printer_token)] else []) ++ ps) a]) := by
  simp [printer_request, hclosed, auth_check_false hauth, hs]

lemma printer_request_success (st : ClientState) (m ep : String)
    (ps : List (String × JValue)) (a : Bool) (r : HttpResponse)
    (hclosed : st.closed = false)
    (hauth : a = false ∨ truthy st.printer_token = true)
    (h200 : r.status = 200) (h1 : pyEqOne (jget r.body "status") = true) :
    printer_request st m ep ps a r =
      (.ok (jget r.body "data"),
       [Event.send m (st.printer_url ++ ep) ep
         ((if a then [(("token" : String), st.printer_token)] else []) ++ ps) a]) := by
  have h4 : ¬(400 ≤ r.status) := by rw [h200]; decide
  simp [printer_request, hclosed, auth_check_false hauth, h4, h200, h1]

lemma printer_request_trace (st : ClientState) (m ep : String)
    (ps : List (String × JValue)) (a : Bool) (r : HttpResponse)
    (hclosed : st.closed = false)
    (hauth : a = false ∨ truthy st.printer_token = true) :
    (printer_request st m ep ps a r).2 =
      [Event.send m (st.printer_url ++ ep) ep
        ((if a then [(("token" : String), st.printer_token)] else []) ++ ps) a] := by
  unfold printer_request
  rw [if_neg (by simp [hclosed]), if_neg (by simp [auth_check_false hauth])]
  dsimp only
  split
  · rfl
  · split
    · rfl
    · split
      · rfl
      · split <;> rfl

lemma printer_request_trace_shape (st : ClientState) (m ep : String)
    (ps : List (String × JValue)) (a : Bool) (r : HttpResponse) :
    (printer_request st m ep ps a r).2 = [] ∨
    (printer_request st m ep ps a r).2 =
      [Event.send m (st.printer_url ++ ep) ep
        ((if a then [(("token" : String), st.printer_token)] else []) ++ ps) a] := by
  unfold printer_request
  split
  · exact Or.inl rfl
  · split
    · exact Or.inl rfl
    · refine Or.inr ?_
      dsimp only
      split
      · rfl
      · split
        · rfl
        · split
          · rfl
          · split <;> rfl

lemma printer_request_ok_trace (st : ClientState) (m ep : String)
    (ps : List (String × JValue)) (a : Bool) (r : HttpResponse) (v : JValue)
    (h : (printer_request st m ep ps a r).1 = .ok v) :
    (printer_request st m ep ps a r).2 =
      [Event.send m (st.printer_url ++ ep) ep
        ((if a then [(("token" : String), st.printer_token)] else []) ++ ps) a] := by
  unfold printer_request at h ⊢
  revert h
  split
  · intro h; simp at h
  · split
    · intro h; simp at h
    · dsimp only
      split
      · intro h; simp at h
      · split
        · intro _; rfl
        · split
          · intro h; simp at h
          · split <;> intro h <;> simp at h

/-! Helper lemmas about the login token store. -/

lemma login_store_token_trace (st : ClientState) (p : Except PyError JValue × List Event) :
    (login_store_token st p).2.2 = p.2 := by
  rcases p with ⟨res, evs⟩
  rcases res with e | data
  · rfl
  · rcases data with _ | b | n | s | xs | fs <;> try rfl
    unfold login_store_token
    dsimp only
    split <;> rfl

lemma login_store_token_fields (st : ClientState) (p : Except PyError JValue × List Event) :
    (login_store_token st p).2.1.printer_password = st.printer_password ∧
    (login_store_token st p).2.1.printer_url = st.printer_url ∧
    (login_store_token st p).2.1.closed = st.closed ∧
    (login_store_token st p).2.1.printer_auto_auth = st.printer_auto_auth := by
  rcases p with ⟨res, evs⟩
  rcases res with e | data
  · exact ⟨rfl, rfl, rfl, rfl⟩
  · rcases data with _ | b | n | s | xs | fs <;> try exact ⟨rfl, rfl, rfl, rfl⟩
    unfold login_store_token
    dsimp only
    split <;> exact ⟨rfl, rfl, rfl, rfl⟩

lemma login_store_token_error_state (st : ClientState)
    (p : Except PyError JValue × List Event) (e : PyError) (st2 : ClientState)
    (evs : List Event) (h : login_store_token st p = (.error e, st2, evs)) :
    st2 = st := by
  rcases p with ⟨res, pevs⟩
  rcases res with e0 | data
  · unfold login_store_token at h
    simp only [Prod.mk.injEq] at h
    exact h.2.1.symm
  · rcases data with _ | b | n | s | xs | fs <;>
      first
      | (unfold login_store_token at h
         simp only [Prod.mk.injEq] at h
         exact h.2.1.symm)
      | (unfold login_store_token at h
         dsimp only at h
         split at h <;> simp only [Prod.mk.injEq] at h
         · exact absurd h.1 (by simp)
         · exact h.2.1.symm)

lemma login_store_token_ok_shape (st : ClientState)
    (p : Except PyError JValue × List Event) (d : JValue) (st2 : ClientState)
    (evs : List Event) (h : login_store_token st p = (.ok d, st2, evs)) :
    (∃ tok, st2 = { st with printer_token := tok }) ∧ p.1 = .ok d ∧ evs = p.2 := by
  rcases p with ⟨res, pevs⟩
  rcases res with e0 | data
  · unfold login_store_token at h
    simp only [Prod.mk.injEq] at h
    exact absurd h.1 (by simp)
  · rcases data with _ | b | n | s | xs | fs <;>
      first
      | (unfold login_store_token at h
         simp only [Prod.mk.injEq] at h
         exact absurd h.1 (by simp))
      | (unfold login_store_token at h
         dsimp only at h
         split at h <;> simp only [Prod.mk.injEq] at h
         · rename_i tok htok
           exact ⟨⟨tok, h.2.1.symm⟩, by rw [h.1], h.2.2.symm⟩
         · exact absurd h.1 (by simp))

/-! Helper lemmas about the stateful login. -/

lemma generate_sign_none (sha1Hex md5Hex : String → String) (now : ℚ) (pw : String) :
    generate_sign sha1Hex md5Hex now pw .pynone =
      .ok (md5Hex (sha1Hex ("password=" ++ pw ++ "&timestamp=" ++ toString (pyTrunc (now * 1000)))),
           pyTrunc (now * 1000)) := rfl

lemma stateful_login_base (sha1Hex md5Hex : String → String) (now : ℚ) (st : ClientState)
    (r : HttpResponse) :
    stateful_login sha1Hex md5Hex now st none none r =
      login_store_token st
        (printer_request st "GET" "/v1/login"
          (loginParams sha1Hex md5Hex now st.printer_password) false r) := rfl

lemma stateful_login_success (sha1Hex md5Hex : String → String) (now : ℚ)
    (st : ClientState) (r : HttpResponse) (dfs : List (String × JValue)) (tok : JValue)
    (hclosed : st.closed = false) (h200 : r.status = 200)
    (h1 : pyEqOne (jget r.body "status") = true)
    (hdata : jget r.body "data" = .obj dfs)
    (htok : jlookup dfs "token" = some tok) :
    stateful_login sha1Hex md5Hex now st none none r =
      (.ok (.obj dfs), { st with printer_token := tok },
       [loginSend sha1Hex md5Hex now st]) := by
  rw [stateful_login_base,
    printer_request_success st "GET" "/v1/login"
      (loginParams sha1Hex md5Hex now st.printer_password) false r hclosed (Or.inl rfl) h200 h1,
    hdata]
  unfold login_store_token
  dsimp only
  rw [htok]
  rfl

lemma stateful_login_trace (sha1Hex md5Hex : String → String) (now : ℚ)
    (st : ClientState) (r : HttpResponse) (hclosed : st.closed = false) :
    (stateful_login sha1Hex md5Hex now st none none r).2.2 =
      [loginSend sha1Hex md5Hex now st] := by
  rw [stateful_login_base, login_store_token_trace,
    printer_request_trace st "GET" "/v1/login"
      (loginParams sha1Hex md5Hex now st.printer_password) false r hclosed (Or.inl rfl)]
  rfl

lemma stateful_login_error_state (sha1Hex md5Hex : String → String) (now : ℚ)
    (st : ClientState) (sg : Option String) (ts : Option ℤ) (r : HttpResponse)
    (e : PyError) (st2 : ClientState) (evs : List Event)
    (h : stateful_login sha1Hex md5Hex now st sg ts r = (.error e, st2, evs)) :
    st2 = st := by
  unfold stateful_login at h
  split at h
  · simp only [Prod.mk.injEq] at h
    exact h.2.1.symm
  · rw [generate_sign_none] at h
    exact login_store_token_error_state st _ e st2 evs h

lemma stateful_login_ok_shape (sha1Hex md5Hex : String → String) (now : ℚ)
    (st : ClientState) (sg : Option String) (ts : Option ℤ) (r : HttpResponse)
    (d : JValue) (st2 : ClientState) (evs : List Event)
    (h : stateful_login sha1Hex md5Hex now st sg ts r = (.ok d, st2, evs)) :
    (∃ tok, st2 = { st with printer_token := tok }) ∧
    evs = [Event.send "GET" (st.printer_url ++ "/v1/login") "/v1/login"
      ((if false then [(("token" : String), st.printer_token)] else []) ++
        loginParams sha1Hex md5Hex now st.printer_password) false] := by
  unfold stateful_login at h
  split at h
  · simp only [Prod.mk.injEq] at h
    exact absurd h.1 (by simp)
  · rw [generate_sign_none] at h
    dsimp only at h
    have hshape := login_store_token_ok_shape st _ d st2 evs h
    refine ⟨hshape.1, ?_⟩
    rw [hshape.2.2, printer_request_ok_trace _ _ _ _ _ _ d hshape.2.1]
    rfl

lemma stateful_login_password (sha1Hex md5Hex : String → String) (now : ℚ)
    (st : ClientState) (sg : Option String) (ts : Option ℤ) (r : HttpResponse) :
    (stateful_login sha1Hex md5Hex now st sg ts r).2.1.printer_password =
      st.printer_password := by
  unfold stateful_login
  split
  · rfl
  · rw [generate_sign_none]
    exact (login_store_token_fields st _).1

lemma not_success_cond (r : HttpResponse)
    (hns : ¬(r.status = 200 ∧ pyEqOne (jget r.body "status") = true)) :
    (r.status == 200 && pyEqOne (jget r.body "status")) = false := by
  by_cases h2 : r.status = 200
  · have h1f : pyEqOne (jget r.body "status") = false := by
      cases h1c : pyEqOne (jget r.body "status")
      · rfl
      · exact absurd ⟨h2, h1c⟩ hns
    simp [h1f]
  · simp [h2]

/-! The claims. -/

/-- C1: the claim says generate_sign with password secret and the integer
millisecond timestamp 1700000000000 returns a fixed MD5 hex pair; the code
instead raises ValueError, because after the None and datetime conversions
only a float reaches the hashing branch and every other input, an int
included, falls into the else branch — contradicting the declared
parameter type int or datetime or None. -/
theorem C1_generate_sign_rejects_int_timestamp
    (sha1Hex md5Hex : String → String) (now : ℚ) :
    generate_sign sha1Hex md5Hex now "secret" (.pyint 1700000000000) =
      .error (.valueError "invalid timestamp argument") := rfl

/-- C2 counterexample: with no token held, auto authentication on (the
default) and an auth-required call, the stateful client does not run the
login protocol and send the request; it fails at once with the missing
credentials ValueError and the trace stays empty. -/
theorem C2_counterexample :
    stateful_printer_request idHash idHash 0 st0 "GET" "/v1/printer/system" [] true none
      resp200 resp200 resp200 =
      (.error (.valueError "Authentication token is required for this API call."),
       st0, []) := rfl

/-- C2 amended: whenever an auth-required request is executed while the
held token is not truthy, the call fails with the missing credentials
ValueError before anything is sent, whatever the auto authentication
setting: the auto-auth handler only reacts to a ClientResponseError with
status 401, and the ValueError is not one. -/
theorem C2_missing_token_fails_regardless_of_auto_auth
    (sha1Hex md5Hex : String → String) (now : ℚ) (st : ClientState)
    (m ep : String) (ps : List (String × JValue)) (aa : Option Bool)
    (r1 rL r2 : HttpResponse)
    (hclosed : st.closed = false) (htok : truthy st.printer_token = false) :
    stateful_printer_request sha1Hex md5Hex now st m ep ps true aa r1 rL r2 =
      (.error (.valueError "Authentication token is required for this API call."),
       st, []) := by
  have h1 : printer_request st m ep ps true r1 =
      (.error (.valueError "Authentication token is required for this API call."), []) := by
    simp [printer_request, hclosed, htok]
  unfold stateful_printer_request
  rw [h1]
  rfl

/-- C2 witness: the amended statement at a concrete input, here with auto
authentication explicitly disabled. -/
theorem C2_missing_token_witness :
    stateful_printer_request idHash idHash 0 st0 "GET" "/v1/printer/basic" [] true
      (some false) resp200 resp200 resp200 =
      (.error (.valueError "Authentication token is required for this API call."),
       st0, []) :=
  C2_missing_token_fails_regardless_of_auto_auth idHash idHash 0 st0 "GET"
    "/v1/printer/basic" [] (some false) resp200 resp200 resp200 rfl rfl

/-- C8: every request executed on a closed session fails fast with the
RuntimeError (a programmer-error kind distinct from the transport and
application error constructors), nothing is sent, and the state is
untouched — for the plain client and the stateful one alike, whatever the
method, endpoint, parameters and auth flag. -/
theorem C8_closed_session_fails_fast
    (sha1Hex md5Hex : String → String) (now : ℚ) (st : ClientState)
    (m ep : String) (ps : List (String × JValue)) (a : Bool) (aa : Option Bool)
    (r1 rL r2 : HttpResponse) (h : st.closed = true) :
    printer_request st m ep ps a r1 =
      (.error (.runtimeError "Client session is closed!"), []) ∧
    stateful_printer_request sha1Hex md5Hex now st m ep ps a aa r1 rL r2 =
      (.error (.runtimeError "Client session is closed!"), st, []) := by
  have h1 : printer_request st m ep ps a r1 =
      (.error (.runtimeError "Client session is closed!"), []) := by
    simp [printer_request, h]
  refine ⟨h1, ?_⟩
  unfold stateful_printer_request
  rw [h1]
  rfl

/-- C8 witness: the closed-session failure at a concrete input. -/
theorem C8_closed_session_witness :
    printer_request stClosed "GET" "/v1/printer/system" [] true resp200 =
      (.error (.runtimeError "Client session is closed!"), []) ∧
    stateful_printer_request idHash idHash 0 stClosed "GET" "/v1/printer/system" []
      true none resp200 resp200 resp200 =
      (.error (.runtimeError "Client session is closed!"), stClosed, []) :=
  C8_closed_session_fails_fast idHash idHash 0 stClosed "GET" "/v1/printer/system"
    [] true none resp200 resp200 resp200 rfl

/-- C9: calling the stateful login with a signature but no timestamp is
rejected with ValueError before anything is sent: the result is the error,
the state is unchanged and the trace is empty. -/
theorem C9_login_sign_without_timestamp
    (sha1Hex md5Hex : String → String) (now : ℚ) (st : ClientState)
    (s : String) (r : HttpResponse) :
    stateful_login sha1Hex md5Hex now st (some s) none r =
      (.error (.valueError "signature provided without timestamp"), st, []) := rfl

/-- C10: any sign and timestamp pair that passes validation is discarded:
the call behaves exactly like the no-argument login, and when the session
is open the single request sent carries the signature and timestamp
freshly generated from the stored password and the current time. -/
theorem C10_login_args_discarded
    (sha1Hex md5Hex : String → String) (now : ℚ) (st : ClientState)
    (sg : Option String) (ts : Option ℤ) (r : HttpResponse)
    (hvalid : ts.isSome ∨ sg.isNone) :
    stateful_login sha1Hex md5Hex now st sg ts r =
      stateful_login sha1Hex md5Hex now st none none r ∧
    (st.closed = false →
      (stateful_login sha1Hex md5Hex now st sg ts r).2.2 =
        [loginSend sha1Hex md5Hex now st]) := by
  have hcond : (ts.isNone && sg.isSome) = false := by
    rcases hvalid with h | h
    · rcases ts with _ | t
      · simp at h
      · simp
    · rcases sg with _ | s
      · simp
      · simp at h
  have heq : stateful_login sha1Hex md5Hex now st sg ts r =
      stateful_login sha1Hex md5Hex now st none none r := by
    simp only [stateful_login, hcond, Option.isNone_none, Option.isSome_none,
      Bool.and_false]
  exact ⟨heq, fun hclosed => by rw [heq, stateful_login_trace _ _ _ _ _ hclosed]⟩

/-- C10 witness: the discard behaviour at a concrete input that passes
validation with both arguments supplied. -/
theorem C10_login_args_discarded_witness :
    stateful_login idHash idHash 0 stTok (some "sig") (some 5) respLoginOK =
      stateful_login idHash idHash 0 stTok none none respLoginOK ∧
    (stTok.closed = false →
      (stateful_login idHash idHash 0 stTok (some "sig") (some 5) respLoginOK).2.2 =
        [loginSend idHash idHash 0 stTok]) :=
  C10_login_args_discarded idHash idHash 0 stTok (some "sig") (some 5) respLoginOK
    (Or.inl rfl)

/-- C5: for every executed request (open session, auth precondition met),
an HTTP 200 whose JSON status field equals 1 returns the JSON data field
unchanged, and every other combination of HTTP status and JSON status
raises some error instead of returning. -/
theorem C5_success_pass_through (st : ClientState) (m ep : String)
    (ps : List (String × JValue)) (a : Bool) (r : HttpResponse)
    (hclosed : st.closed = false)
    (hauth : a = false ∨ truthy st.printer_token = true) :
    (r.status = 200 ∧ pyEqOne (jget r.body "status") = true →
      (printer_request st m ep ps a r).1 = .ok (jget r.body "data")) ∧
    (¬(r.status = 200 ∧ pyEqOne (jget r.body "status") = true) →
      ∃ e, (printer_request st m ep ps a r).1 = .error e) := by
  constructor
  · rintro ⟨h200, h1⟩
    rw [printer_request_success st m ep ps a r hclosed hauth h200 h1]
  · intro hns
    by_cases h4 : 400 ≤ r.status
    · rw [printer_request_http_error st m ep ps a r hclosed hauth h4]
      exact ⟨_, rfl⟩
    · have hcond := not_success_cond r hns
      unfold printer_request
      rw [if_neg (by simp [hclosed]), if_neg (by simp [auth_check_false hauth])]
      dsimp only
      rw [if_neg h4, if_neg (by simp [hcond])]
      rcases herr : errorField r.body with e | err
      · exact ⟨_, rfl⟩
      · dsimp only
        rcases hc : pyToInt (jget err "code") with _ | code
        · exact ⟨_, rfl⟩
        · exact ⟨_, rfl⟩

/-- C5 witness: the pass-through direction evaluated at a concrete
successful response. -/
theorem C5_success_witness :
    (printer_request stTok "GET" "/v1/printer/system" [] true resp200).1 =
      .ok (.str "ok") :=
  (C5_success_pass_through stTok "GET" "/v1/printer/system" [] true resp200 rfl
    (Or.inr rfl)).1 ⟨rfl, rfl⟩

/-- C6 counterexample: an executed request answered with HTTP 500 and a
body carrying the integer-parseable error.code 42 does not raise the
specific API error with code 42: raise_for_status raises the transport
ClientResponseError with status 500 before the body is inspected. -/
theorem C6_counterexample :
    (printer_request stTok "GET" "/v1/printer/system" [] true resp500).1 =
      .error (.clientResponseError 500) ∧
    (printer_request stTok "GET" "/v1/printer/system" [] true resp500).1 ≠
      .error (.apiResponseError 42 (.str "boom")) := by
  refine ⟨rfl, ?_⟩
  intro hcontra
  rw [show (printer_request stTok "GET" "/v1/printer/system" [] true resp500).1 =
      .error (.clientResponseError 500) from rfl] at hcontra
  injection hcontra with h2
  exact PyError.noConfusion h2

/-- C6 amended: for every executed request whose HTTP status is below 400
(responses of 400 and above instead raise the transport HTTP-status error
before the body is read) and that is not a success, with the error field
absent or an object: an integer-parseable error.code raises the specific
APIResponseError carrying that code and error.msg, and an absent or
unparseable error.code raises the generic client error instead. -/
theorem C6_error_extraction_below_400 (st : ClientState) (m ep : String)
    (ps : List (String × JValue)) (a : Bool) (r : HttpResponse)
    (err : List (String × JValue))
    (hclosed : st.closed = false)
    (hauth : a = false ∨ truthy st.printer_token = true)
    (hlt : r.status < 400)
    (hns : ¬(r.status = 200 ∧ pyEqOne (jget r.body "status") = true))
    (herr : errorField r.body = .ok err) :
    (∀ code, pyToInt (jget err "code") = some code →
      (printer_request st m ep ps a r).1 =
        .error (.apiResponseError code (jgetD err "msg" (.str "Unknown error")))) ∧
    (pyToInt (jget err "code") = none →
      (printer_request st m ep ps a r).1 =
        .error (.genericClientError (jgetD err "msg" (.str "Unknown error")))) := by
  have h4 : ¬(400 ≤ r.status) := not_le.mpr hlt
  have hcond := not_success_cond r hns
  unfold printer_request
  rw [if_neg (by simp [hclosed]), if_neg (by simp [auth_check_false hauth])]
  dsimp only
  rw [if_neg h4, if_neg (by simp [hcond]), herr]
  dsimp only
  constructor
  · intro code hc
    rw [hc]
  · intro hc
    rw [hc]

/-- C6 witness: the generic-error direction evaluated at a concrete
response whose error.code is the unparseable string abc. -/
theorem C6_error_extraction_witness :
    (printer_request stTok "GET" "/v1/printer/system" [] true respBadCode).1 =
      .error (.genericClientError (.str "bad")) :=
  (C6_error_extraction_below_400 stTok "GET" "/v1/printer/system" [] true respBadCode
    [("code", .str "abc"), ("msg", .str "bad")] rfl (Or.inr rfl) (by decide)
    (by rintro ⟨-, hbad⟩; exact absurd hbad (by decide)) rfl).2 (by decide)

/-- C4 counterexample: an application-level APIResponseError whose JSON
error code is 429, produced from an HTTP 200 response — so neither a
connection-aborted failure, nor an OS-level reset, nor an HTTP 429 — is
nonetheless retried after the backoff by the transient-failure handler,
because the handler matches on the status attribute of any
ClientResponseError subclass. -/
theorem C4_counterexample :
    (printer_request stTok "GET" "/v1/printer/system" [] true resp429api).1 =
      .error (.apiResponseError 429 (.str "slow down")) ∧
    async_call_api_method (.error (.apiResponseError 429 (.str "slow down")))
        (.ok (.str "second")) =
      (.ok (.str "second"), [.methodCall, .sleep ((3 : ℚ) / 2), .methodCall]) :=
  ⟨rfl, rfl⟩

/-- C4 amended: the transient-failure handler returns a first-attempt
success as is; on a first-attempt failure whose exception is
ServerDisconnectedError, ClientOSError with errno 104, or any
ClientResponseError whose status attribute is 429 (an APIResponseError
carrying JSON error code 429 included), it sleeps 1.5 seconds and returns
the second outcome, whatever it is, with no further retry; every other
first-attempt failure propagates at once with no retry. -/
theorem C4_retry_behavior (r1 r2 : Except PyError JValue) :
    (∀ v, r1 = .ok v →
      async_call_api_method r1 r2 = (.ok v, [.methodCall])) ∧
    (∀ e, r1 = .error e → isTransient e = true →
      async_call_api_method r1 r2 =
        (r2, [.methodCall, .sleep ((3 : ℚ) / 2), .methodCall])) ∧
    (∀ e, r1 = .error e → isTransient e = false →
      async_call_api_method r1 r2 = (.error e, [.methodCall])) ∧
    (∀ e, isTransient e = true ↔
      (e = .serverDisconnectedError ∨ e = .clientOSError 104 ∨
       e = .clientResponseError 429 ∨ ∃ msg, e = .apiResponseError 429 msg)) := by
  refine ⟨?_, ?_, ?_, ?_⟩
  · intro v h
    rw [h]
    rfl
  · intro e h ht
    rw [h]
    simp [async_call_api_method, ht]
  · intro e h ht
    rw [h]
    simp [async_call_api_method, ht]
  · intro e
    cases e <;> simp [isTransient]

/-- C4 witness: the retry branch evaluated at a concrete transient
failure. -/
theorem C4_retry_witness :
    async_call_api_method (.error .serverDisconnectedError) (.ok .null) =
      (.ok .null, [.methodCall, .sleep ((3 : ℚ) / 2), .methodCall]) :=
  (C4_retry_behavior (.error .serverDisconnectedError) (.ok .null)).2.1
    .serverDisconnectedError rfl rfl

/-- C3: with the session open, a truthy token held, auto authentication
effectively enabled and the first attempt answered with HTTP 401: when the
login succeeds and yields a truthy token, the client performs exactly the
three sends recorded in the trace — the original request, one login, one
retry of the original request with the new token — the new state holds the
new token, and the final outcome is that of the retry: the retried
response data on success, and the second 401 surfaced unchanged with no
further login or retry. -/
theorem C3_auto_auth_401_retry
    (sha1Hex md5Hex : String → String) (now : ℚ) (st : ClientState)
    (m ep : String) (ps : List (String × JValue)) (aa : Option Bool)
    (resp1 loginResp resp2 : HttpResponse)
    (dfs : List (String × JValue)) (tok : JValue)
    (hclosed : st.closed = false) (htok : truthy st.printer_token = true)
    (hauto : aa.getD st.printer_auto_auth = true)
    (h401 : resp1.status = 401)
    (hl200 : loginResp.status = 200)
    (hl1 : pyEqOne (jget loginResp.body "status") = true)
    (hld : jget loginResp.body "data" = .obj dfs)
    (hltk : jlookup dfs "token" = some tok)
    (htok2 : truthy tok = true) :
    stateful_printer_request sha1Hex md5Hex now st m ep ps true aa resp1 loginResp resp2 =
      ((printer_request { st with printer_token := tok } m ep ps true resp2).1,
       { st with printer_token := tok },
       [Event.send m (st.printer_url ++ ep) ep ((("token" : String), st.printer_token) :: ps) true,
        loginSend sha1Hex md5Hex now st,
        Event.send m (st.printer_url ++ ep) ep ((("token" : String), tok) :: ps) true]) ∧
    (resp2.status = 200 → pyEqOne (jget resp2.body "status") = true →
      (stateful_printer_request sha1Hex md5Hex now st m ep ps true aa resp1 loginResp resp2).1 =
        .ok (jget resp2.body "data")) ∧
    (400 ≤ resp2.status →
      (stateful_printer_request sha1Hex md5Hex now st m ep ps true aa resp1 loginResp resp2).1 =
        .error (.clientResponseError resp2.status)) := by
  have h400 : (400 : ℤ) ≤ resp1.status := by
    rw [h401]
    decide
  have hbase1 := printer_request_http_error st m ep ps true resp1 hclosed (Or.inr htok) h400
  rw [h401] at hbase1
  have hlogin := stateful_login_success sha1Hex md5Hex now st loginResp dfs tok hclosed
    hl200 hl1 hld hltk
  have hclosed2 : ({ st with printer_token := tok } : ClientState).closed = false := hclosed
  have hauth2 : (true = false) ∨
      truthy ({ st with printer_token := tok } : ClientState).printer_token = true :=
    Or.inr htok2
  have hmain : stateful_printer_request sha1Hex md5Hex now st m ep ps true aa resp1 loginResp resp2 =
      ((printer_request { st with printer_token := tok } m ep ps true resp2).1,
       { st with printer_token := tok },
       [Event.send m (st.printer_url ++ ep) ep ((("token" : String), st.printer_token) :: ps) true,
        loginSend sha1Hex md5Hex now st,
        Event.send m (st.printer_url ++ ep) ep ((("token" : String), tok) :: ps) true]) := by
    simp only [if_pos, List.singleton_append] at hbase1
    unfold stateful_printer_request
    rw [hbase1]
    dsimp only [clientResponseStatus]
    rw [hauto, if_neg (by decide), hlogin]
    dsimp only
    rcases hp2 : printer_request { st with printer_token := tok } m ep ps true resp2
      with ⟨r2v, evs2⟩
    have htr2 := printer_request_trace { st with printer_token := tok } m ep ps true resp2
      hclosed2 hauth2
    rw [hp2] at htr2
    dsimp only at htr2
    simp only [if_pos, List.singleton_append] at htr2
    rw [htr2]
    rfl
  refine ⟨hmain, ?_, ?_⟩
  · intro h2200 h21
    rw [hmain]
    dsimp only
    rw [printer_request_success _ m ep ps true resp2 hclosed2 hauth2 h2200 h21]
  · intro h2err
    rw [hmain]
    dsimp only
    rw [printer_request_http_error _ m ep ps true resp2 hclosed2 hauth2 h2err]

/-- C3 witness: the 401 retry pipeline evaluated end to end at a concrete
input with a successful re-login and a successful retry. -/
theorem C3_auto_auth_401_retry_witness :
    (stateful_printer_request idHash idHash 0 stTok "GET" "/v1/printer/system" []
        true none resp401 respLoginOK resp200).1 = .ok (.str "ok") :=
  (C3_auto_auth_401_retry idHash idHash 0 stTok "GET" "/v1/printer/system" [] none
    resp401 respLoginOK resp200 [("token", .str "new")] (.str "new")
    rfl rfl rfl rfl rfl rfl rfl rfl rfl).2.1 rfl rfl

/-- C7 counterexample: a non-login operation (an authenticated GET of a
printer endpoint) executed with auto authentication on and a 401 first
answer changes the stored bearer token from old to new before it
completes, refuting the claim that every operation other than login leaves
the token unchanged. -/
theorem C7_counterexample :
    (stateful_printer_request idHash idHash 0 stTok "GET" "/v1/printer/basic" []
        true none resp401 respLoginOK resp200).2.1.printer_token = .str "new" ∧
    stTok.printer_token = .str "old" ∧
    ("new" : String) ≠ "old" :=
  ⟨rfl, rfl, by decide⟩

/-- C7 amended: every request leaves the password, the base URL, the
closed flag and the auto-auth flag unchanged; the token can change only
when the operation itself ran the login protocol, witnessed by a login
send in the trace; and the login operation, the sole mutator of the token,
never changes the password either. -/
theorem C7_state_frame
    (sha1Hex md5Hex : String → String) (now : ℚ) (st : ClientState)
    (m ep : String) (ps : List (String × JValue)) (a : Bool) (aa : Option Bool)
    (r1 rL r2 : HttpResponse) (sg : Option String) (ts : Option ℤ) :
    (stateful_printer_request sha1Hex md5Hex now st m ep ps a aa r1 rL r2).2.1.printer_password =
      st.printer_password ∧
    (stateful_printer_request sha1Hex md5Hex now st m ep ps a aa r1 rL r2).2.1.printer_url =
      st.printer_url ∧
    (stateful_printer_request sha1Hex md5Hex now st m ep ps a aa r1 rL r2).2.1.closed =
      st.closed ∧
    ((stateful_printer_request sha1Hex md5Hex now st m ep ps a aa r1 rL r2).2.1.printer_token ≠
        st.printer_token →
      hasLoginSend (stateful_printer_request sha1Hex md5Hex now st m ep ps a aa r1 rL r2).2.2 =
        true) ∧
    (stateful_login sha1Hex md5Hex now st sg ts rL).2.1.printer_password =
      st.printer_password := by
  refine ?_
  have hE := stateful_login_password sha1Hex md5Hex now st sg ts rL
  unfold stateful_printer_request
  rcases hpr1 : printer_request st m ep ps a r1 with ⟨res1, evs1⟩
  rcases res1 with e | v
  · dsimp only
    rcases hcs : clientResponseStatus e with _ | s
    · exact ⟨rfl, rfl, rfl, fun h => absurd rfl h, hE⟩
    · dsimp only
      split
      · exact ⟨rfl, rfl, rfl, fun h => absurd rfl h, hE⟩
      · rcases hsl : stateful_login sha1Hex md5Hex now st none none rL
          with ⟨lres, st2, evsL⟩
        rcases lres with le | ld
        · dsimp only
          have hst2 := stateful_login_error_state sha1Hex md5Hex now st none none rL
            le st2 evsL hsl
          subst hst2
          exact ⟨rfl, rfl, rfl, fun h => absurd rfl h, hE⟩
        · dsimp only
          rcases hp2 : printer_request st2 m ep ps a r2 with ⟨r2v, evs2⟩
          obtain ⟨⟨tok, hst2⟩, hevsL⟩ :=
            stateful_login_ok_shape sha1Hex md5Hex now st none none rL ld st2 evsL hsl
          subst hst2
          refine ⟨rfl, rfl, rfl, ?_, hE⟩
          intro _
          rw [hevsL]
          simp [hasLoginSend, List.any_append]
  · dsimp only
    exact ⟨rfl, rfl, rfl, fun h => absurd rfl h, hE⟩

/-- C7 witness: the frame property evaluated at a concrete run in which
the auto-auth login does fire. -/
theorem C7_state_frame_witness :
    (stateful_printer_request idHash idHash 0 stTok "GET" "/v1/printer/system" []
        true none resp401 respLoginOK resp200).2.1.printer_password = "secret" :=
  (C7_state_frame idHash idHash 0 stTok "GET" "/v1/printer/system" [] true none
    resp401 respLoginOK resp200 none none).1

end Raise3D
